import Mathlib

/-!
Shallow embedding of the "Clarity Layer" overlay core (win-access repository):
the ShaderPipeline multi-pass GPU transform, the CaptureManager per-monitor
capture lifecycle, the OverlayWindow compositor with device-loss recovery,
and the color-inversion pixel shader.  Definitions are translated from
`src/overlay/ShaderPipeline.{h,cpp}`, `src/overlay/CaptureManager.cpp` with
its header, `src/overlay/OverlayWindow.cpp`, and the HLSL shader sources.
GPU calls that can fail (texture allocation, SRV creation, swap-chain resize,
device creation) are modelled by boolean outcome parameters; float arithmetic
is modelled over the rationals.
-/

namespace Clarity

/-! ## ShaderPipeline: parameters and state (ShaderPipeline.h) -/

/-- `enum class InvertMode { None = 0, Full, BrightnessOnly }` from
ProfileManager.h. -/
inductive InvertMode where
  | None
  | Full
  | BrightnessOnly
deriving DecidableEq, Repr

/-- `static_cast<int>(mode)` used by `SetInvertMode`. -/
def InvertMode.toInt : InvertMode → Int
  | .None => 0
  | .Full => 1
  | .BrightnessOnly => 2

/-- `struct TransformParams` (ShaderPipeline.h): the six transform
parameters, with floats modelled as rationals. -/
structure TransformParams where
  contrast : ℚ
  brightness : ℚ
  gamma : ℚ
  saturation : ℚ
  invertMode : Int
  edgeStrength : ℚ
deriving DecidableEq, Repr

/-- Member initializers of `TransformParams`. -/
def TransformParams.init : TransformParams :=
  { contrast := 1, brightness := 0, gamma := 1, saturation := 1,
    invertMode := 0, edgeStrength := 0 }

/-- `struct VisualSettings` (ProfileManager.h), restricted to the fields
consumed by `ShaderPipeline::ApplyProfile`. -/
structure VisualSettings where
  contrast : ℚ
  brightness : ℚ
  gamma : ℚ
  saturation : ℚ
  invertMode : InvertMode
  edgeStrength : ℚ
deriving DecidableEq, Repr

/-- `std::clamp(v, lo, hi)`: `v < lo ? lo : hi < v ? hi : v`. -/
def clampQ (v lo hi : ℚ) : ℚ :=
  if v < lo then lo else if hi < v then hi else v

/-- Mutable state of a `ShaderPipeline` object.  `edgeShaderLoaded` records
whether the optional `edge_enhance.cso` shader was loaded at initialization
(`m_edgeShader` non-null); `gpuParams` is the contents of the GPU constant
buffer; `surfacesAllocated` records whether the intermediate/output render
targets currently exist. -/
structure PipelineState where
  ready : Bool
  edgeShaderLoaded : Bool
  params : TransformParams
  gpuParams : TransformParams
  paramsDirty : Bool
  outputWidth : Int
  outputHeight : Int
  surfacesAllocated : Bool
deriving DecidableEq, Repr

/-- Pipeline state after construction: `m_ready = false`,
`m_paramsDirty = true`, `m_outputWidth = m_outputHeight = 0`. -/
def PipelineState.init : PipelineState :=
  { ready := false, edgeShaderLoaded := false,
    params := TransformParams.init, gpuParams := TransformParams.init,
    paramsDirty := true, outputWidth := 0, outputHeight := 0,
    surfacesAllocated := false }

/-! ## ShaderPipeline: parameter setters (ShaderPipeline.cpp 161-198) -/

/-- `SetContrast`: clamp to `[0,4]`, mark dirty. -/
def SetContrast (s : PipelineState) (contrast : ℚ) : PipelineState :=
  { s with params := { s.params with contrast := clampQ contrast 0 4 },
           paramsDirty := true }

/-- `SetBrightness`: clamp to `[-1,1]`, mark dirty. -/
def SetBrightness (s : PipelineState) (brightness : ℚ) : PipelineState :=
  { s with params := { s.params with brightness := clampQ brightness (-1) 1 },
           paramsDirty := true }

/-- `SetGamma`: clamp to `[0.1,4]`, mark dirty. -/
def SetGamma (s : PipelineState) (gamma : ℚ) : PipelineState :=
  { s with params := { s.params with gamma := clampQ gamma (1/10) 4 },
           paramsDirty := true }

/-- `SetSaturation`: clamp to `[0,2]`, mark dirty. -/
def SetSaturation (s : PipelineState) (saturation : ℚ) : PipelineState :=
  { s with params := { s.params with saturation := clampQ saturation 0 2 },
           paramsDirty := true }

/-- `SetInvertMode`: store `static_cast<int>(mode)`, mark dirty. -/
def SetInvertMode (s : PipelineState) (mode : InvertMode) : PipelineState :=
  { s with params := { s.params with invertMode := mode.toInt },
           paramsDirty := true }

/-- `SetEdgeStrength`: clamp to `[0,1]`, mark dirty. -/
def SetEdgeStrength (s : PipelineState) (strength : ℚ) : PipelineState :=
  { s with params := { s.params with edgeStrength := clampQ strength 0 1 },
           paramsDirty := true }

/-- `ApplyProfile`: apply all six setters in source order. -/
def ApplyProfile (s : PipelineState) (v : VisualSettings) : PipelineState :=
  SetEdgeStrength
    (SetInvertMode
      (SetSaturation
        (SetGamma
          (SetBrightness (SetContrast s v.contrast) v.brightness)
          v.gamma)
        v.saturation)
      v.invertMode)
    v.edgeStrength

/-- One call to any of the six parameter setters. -/
inductive SetterCall where
  | contrast (v : ℚ)
  | brightness (v : ℚ)
  | gamma (v : ℚ)
  | saturation (v : ℚ)
  | invert (m : InvertMode)
  | edge (v : ℚ)
deriving DecidableEq, Repr

/-- Dispatch one setter call. -/
def applySetter (s : PipelineState) : SetterCall → PipelineState
  | .contrast v => SetContrast s v
  | .brightness v => SetBrightness s v
  | .gamma v => SetGamma s v
  | .saturation v => SetSaturation s v
  | .invert m => SetInvertMode s m
  | .edge v => SetEdgeStrength s v

/-- A sequence of setter calls, applied left to right. -/
def applySetters (s : PipelineState) : List SetterCall → PipelineState
  | [] => s
  | c :: cs => applySetters (applySetter s c) cs

/-- The declared ranges of `TransformParams` (ShaderPipeline.h comments and
spec section 3): contrast in `[0,4]`, brightness in `[-1,1]`, gamma in
`[0.1,4]`, saturation in `[0,2]`, invertMode in `{0,1,2}`, edgeStrength in
`[0,1]`. -/
def paramsInRange (p : TransformParams) : Prop :=
  0 ≤ p.contrast ∧ p.contrast ≤ 4 ∧
  -1 ≤ p.brightness ∧ p.brightness ≤ 1 ∧
  1/10 ≤ p.gamma ∧ p.gamma ≤ 4 ∧
  0 ≤ p.saturation ∧ p.saturation ≤ 2 ∧
  (p.invertMode = 0 ∨ p.invertMode = 1 ∨ p.invertMode = 2) ∧
  0 ≤ p.edgeStrength ∧ p.edgeStrength ≤ 1

instance (p : TransformParams) : Decidable (paramsInRange p) := by
  unfold paramsInRange; infer_instance

/-! ## ShaderPipeline: Process (ShaderPipeline.cpp 76-158) -/

/-- Width and height of the input `ID3D11Texture2D` (its `GetDesc` result). -/
structure TexDesc where
  width : Int
  height : Int
deriving DecidableEq, Repr

/-- Which texture/SRV `Process` currently treats as the next pass's input
(`currentInput` in the source). -/
inductive Surf where
  | inputTex
  | intermediate
  | output
deriving DecidableEq, Repr

/-- One executed render pass, identified by its pixel shader. -/
inductive Pass where
  | base
  | invert
  | edge
  | passthrough
deriving DecidableEq, Repr

/-- Which texture `Process` returns. -/
inductive ProcOut where
  | returnsInput
  | returnsIntermediate
  | returnsOutput
deriving DecidableEq, Repr

/-- Result of one `Process` call: the returned texture identity, the state
after the call, the passes executed in order, and whether
`CreateIntermediateTextures` was invoked. -/
structure ProcResult where
  out : ProcOut
  state : PipelineState
  passes : List Pass
  recreated : Bool
deriving DecidableEq, Repr

/-- `CreateIntermediateTextures(width, height)` (ShaderPipeline.cpp 272-322):
stores the new size, releases both surfaces, then recreates them; `allocOk`
is the outcome of the GPU allocations.  Note the size members are updated
even when allocation fails. -/
def CreateIntermediateTextures (s : PipelineState) (width height : Int)
    (allocOk : Bool) : Bool × PipelineState :=
  (allocOk,
   { s with outputWidth := width, outputHeight := height,
            surfacesAllocated := allocOk })

/-- `UpdateParameters` (ShaderPipeline.cpp 200-210): upload `m_params` into
the constant buffer and clear the dirty flag. -/
def UpdateParameters (s : PipelineState) : PipelineState :=
  { s with gpuParams := s.params, paramsDirty := false }

/-- The tail of `Process` from the passthrough check at line 153: if
`currentInput` is the intermediate SRV, run the passthrough pass into the
output target; return the output texture. -/
def finishProcess (s : PipelineState) (passes : List Pass) (cur : Surf)
    (recreated : Bool) : ProcResult :=
  if cur = Surf.intermediate then
    { out := .returnsOutput, state := s,
      passes := passes ++ [Pass.passthrough], recreated := recreated }
  else
    { out := .returnsOutput, state := s, passes := passes,
      recreated := recreated }

/-- The multi-pass section of `Process` (ShaderPipeline.cpp 91-158), after
the resize check: lazy constant-buffer upload, input SRV creation (`srvOk`),
then pass 1 (base adjust, always), pass 2 (invert, iff `invertMode != 0`),
pass 3 (edge, iff `edgeStrength > 0` and the edge shader loaded; returns the
intermediate texture directly when its target was the intermediate surface),
and the final passthrough check. -/
def processPasses (s : PipelineState) (srvOk : Bool) (recreated : Bool) :
    ProcResult :=
  let s := if s.paramsDirty then UpdateParameters s else s
  if srvOk = false then
    { out := .returnsInput, state := s, passes := [], recreated := recreated }
  else
    -- Pass 1: contrast/brightness/gamma/saturation, then
    -- currentInput = m_intermediateSRV
    let passes := [Pass.base]
    let cur := Surf.intermediate
    -- Pass 2: inversion (if enabled), then currentInput = m_outputSRV
    let passes := if s.params.invertMode ≠ 0 then passes ++ [Pass.invert]
                  else passes
    let cur := if s.params.invertMode ≠ 0 then Surf.output else cur
    -- Pass 3: edge enhancement (if enabled and shader available)
    if s.params.edgeStrength > 0 ∧ s.edgeShaderLoaded = true then
      let finalTarget := if cur = Surf.output then Surf.intermediate
                         else Surf.output
      let passes := passes ++ [Pass.edge]
      -- the source does not update currentInput after this pass
      if finalTarget = Surf.intermediate then
        { out := .returnsIntermediate, state := s, passes := passes,
          recreated := recreated }
      else
        finishProcess s passes cur recreated
    else
      finishProcess s passes cur recreated

/-- `Process(input)` (ShaderPipeline.cpp 76-158).  `input = none` models a
null texture pointer; `allocOk` is the outcome of the GPU allocations inside
`CreateIntermediateTextures`; `srvOk` is the outcome of creating the input
shader resource view. -/
def Process (s : PipelineState) (input : Option TexDesc)
    (allocOk srvOk : Bool) : ProcResult :=
  match input with
  | none => { out := .returnsInput, state := s, passes := [], recreated := false }
  | some d =>
    if s.ready = false then
      { out := .returnsInput, state := s, passes := [], recreated := false }
    else if d.width ≠ s.outputWidth ∨ d.height ≠ s.outputHeight then
      let r := CreateIntermediateTextures s d.width d.height allocOk
      if r.1 = false then
        { out := .returnsInput, state := r.2, passes := [], recreated := true }
      else
        processPasses r.2 srvOk true
    else
      processPasses s srvOk false

/-! ## CaptureManager (CaptureManager.cpp, CaptureManager.h) -/

/-- One per-monitor capture (`struct MonitorCapture` in CaptureManager.h):
`subscribed` is whether `frameArrivedToken` holds a live event subscription,
`sessionOpen`/`framePoolOpen`/`itemHeld` whether the session, frame pool and
capture item are still held. -/
structure MonitorCapture where
  monitor : Nat
  subscribed : Bool
  sessionOpen : Bool
  framePoolOpen : Bool
  itemHeld : Bool
deriving DecidableEq, Repr

/-- Mutable state of a `CaptureManager`: the atomic `m_running` flag, the
`m_captures` vector, the enumerated `m_monitors` (as handles), and whether a
frame callback is registered (`m_frameCallback` non-empty). -/
structure CaptureState where
  running : Bool
  captures : List MonitorCapture
  monitors : List Nat
  callbackSet : Bool
deriving DecidableEq, Repr

/-- `CreateCaptureForMonitor` on success pushes a fully wired capture:
item held, frame pool open, handler subscribed, session open and started. -/
def mkCapture (m : Nat) : MonitorCapture :=
  { monitor := m, subscribed := true, sessionOpen := true,
    framePoolOpen := true, itemHeld := true }

/-- `Start()` (CaptureManager.cpp 36-60): early-return `true` when already
running; fail when the capture-capability probe fails (`probeOk` models
`IsGraphicsCaptureAvailable()`); otherwise attempt
`CreateCaptureForMonitor` for every enumerated monitor (`createOk` gives
each attempt's outcome; failures continue with the other monitors), set
`m_running = true`, and return `!m_captures.empty()`. -/
def Start (s : CaptureState) (probeOk : Bool) (createOk : Nat → Bool) :
    Bool × CaptureState :=
  if s.running = true then (true, s)
  else if probeOk = false then (false, s)
  else
    let caps := s.captures ++ (s.monitors.filter createOk).map mkCapture
    (!caps.isEmpty, { s with captures := caps, running := true })

/-- `IsRunning()` (CaptureManager.h 77). -/
def IsRunning (s : CaptureState) : Bool := s.running

/-- One teardown step performed by `Stop()` on one capture. -/
inductive StopAction where
  | revokeHandler (m : Nat)
  | closeSession (m : Nat)
  | closeFramePool (m : Nat)
  | releaseItem (m : Nat)
deriving DecidableEq, Repr

/-- The teardown steps `Stop()` performs for one capture, in source order
(CaptureManager.cpp 67-82): revoke the frame-arrived handler first (guarded
by `framePool && frameArrivedToken`), then close the session, then close the
frame pool, then release the item. -/
def stopCaptureActions (c : MonitorCapture) : List StopAction :=
  (if c.framePoolOpen && c.subscribed then [StopAction.revokeHandler c.monitor]
   else [])
  ++ (if c.sessionOpen then [StopAction.closeSession c.monitor] else [])
  ++ (if c.framePoolOpen then [StopAction.closeFramePool c.monitor] else [])
  ++ [StopAction.releaseItem c.monitor]

/-- `Stop()` (CaptureManager.cpp 62-88): no-op when not running, else tear
down every capture in order, clear `m_captures`, clear `m_running`.  Returns
the new state and the sequence of per-capture teardown actions. -/
def Stop (s : CaptureState) : CaptureState × List StopAction :=
  if s.running = false then (s, [])
  else ({ s with captures := [], running := false },
        (s.captures.map stopCaptureActions).flatten)

/-- `OnFrameArrived` (CaptureManager.cpp 248-284): returns whether the
registered frame callback is invoked.  Bails out when `m_running` is false;
`frameOk` models `TryGetNextFrame`/`Surface`/texture extraction succeeding;
the callback fires only when one is registered. -/
def OnFrameArrived (s : CaptureState) (frameOk : Bool) : Bool :=
  if s.running = false then false
  else if frameOk = false then false
  else s.callbackSet

/-- Delivery of a frame-arrived event for monitor `m`: the handler lambda
only runs while the frame pool still exists and the subscription taken in
`CreateCaptureForMonitor` has not been revoked; it then executes
`OnFrameArrived`.  Returns whether the frame callback was invoked. -/
def deliverFrameEvent (s : CaptureState) (m : Nat) (frameOk : Bool) : Bool :=
  if s.captures.any (fun c => c.monitor == m && c.subscribed && c.framePoolOpen)
  then OnFrameArrived s frameOk
  else false

/-! ## OverlayWindow (OverlayWindow.cpp) -/

/-- Mutable state of an `OverlayWindow`: visibility, the window handle, the
device-dependent resources (`m_device`/`m_context`, `m_swapChain`,
`m_renderTarget`, and the buffers/sampler/blend state grouped as
`hasRenderResources`), the `m_deviceLost` flag, whether a device-lost
callback is registered, and the computed overlay bounds.  `deviceGen` counts
successful `InitializeD3D` device creations, so it advances exactly when the
device is recreated. -/
structure OverlayState where
  visible : Bool
  hasWindow : Bool
  hasDevice : Bool
  hasSwapChain : Bool
  hasRenderTarget : Bool
  hasRenderResources : Bool
  deviceLost : Bool
  callbackRegistered : Bool
  deviceGen : Nat
  boundsW : Int
  boundsH : Int
deriving DecidableEq, Repr

/-- `Hide()` (OverlayWindow.cpp 84-91): no-op without a window or when
already hidden. -/
def Hide (s : OverlayState) : OverlayState :=
  if s.hasWindow = false ∨ s.visible = false then s
  else { s with visible := false }

/-- `RecoverFromDeviceLost()` (OverlayWindow.cpp 193-224): release every
device-dependent resource (render target, swap chain, buffers, sampler,
blend state, context, device), pause (`Sleep(100)`, no observable state),
then `InitializeD3D` (outcome `initOk`; on success the device is recreated,
advancing `deviceGen`) and `CreateRenderResources` (outcome `createOk`).
Returns whether recovery succeeded, with the resulting state. -/
def RecoverFromDeviceLost (s : OverlayState) (initOk createOk : Bool) :
    Bool × OverlayState :=
  let s := { s with hasRenderTarget := false, hasSwapChain := false,
                    hasRenderResources := false, hasDevice := false }
  if initOk = false then (false, s)
  else
    let s := { s with hasDevice := true, deviceGen := s.deviceGen + 1 }
    if createOk = false then (false, s)
    else (true, { s with hasSwapChain := true, hasRenderTarget := true,
                         hasRenderResources := true })

/-- Outcome of `IDXGISwapChain::Present`. -/
inductive PresentHR where
  | ok
  | deviceRemoved
  | deviceReset
  | otherError
deriving DecidableEq, Repr

/-- Result of one `Present()` call: the state afterwards, how many recovery
attempts ran, and whether the device-lost callback was invoked. -/
structure PresentResult where
  state : OverlayState
  recoveryAttempts : Nat
  callbackInvoked : Bool
deriving DecidableEq, Repr

/-- `Present()` (OverlayWindow.cpp 154-191): no-op unless visible with a
swap chain.  On `DXGI_ERROR_DEVICE_REMOVED`/`DXGI_ERROR_DEVICE_RESET`, set
`m_deviceLost`, attempt `RecoverFromDeviceLost` once; on success clear
`m_deviceLost` and invoke the registered device-lost callback; on failure
hide the overlay. -/
def Present (s : OverlayState) (hr : PresentHR) (initOk createOk : Bool) :
    PresentResult :=
  if s.visible = false ∨ s.hasSwapChain = false then
    { state := s, recoveryAttempts := 0, callbackInvoked := false }
  else if hr = PresentHR.deviceRemoved ∨ hr = PresentHR.deviceReset then
    let s := { s with deviceLost := true }
    let r := RecoverFromDeviceLost s initOk createOk
    if r.1 = true then
      { state := { r.2 with deviceLost := false }, recoveryAttempts := 1,
        callbackInvoked := r.2.callbackRegistered }
    else
      { state := Hide r.2, recoveryAttempts := 1, callbackInvoked := false }
  else
    { state := s, recoveryAttempts := 0, callbackInvoked := false }

/-- `Resize()` (OverlayWindow.cpp 551-594): no-op without a swap chain;
release the render target; bail out on non-positive dimensions; resize the
swap-chain buffers (`resizeOk`), reacquire the back buffer (`bufferOk`) and
recreate the render target view (`rtvOk`) — any of these three failing hides
the overlay and returns. -/
def Resize (s : OverlayState) (resizeOk bufferOk rtvOk : Bool) : OverlayState :=
  if s.hasSwapChain = false then s
  else
    let s := { s with hasRenderTarget := false }
    if s.boundsW ≤ 0 ∨ s.boundsH ≤ 0 then s
    else if resizeOk = false then Hide s
    else if bufferOk = false then Hide s
    else if rtvOk = false then Hide s
    else { s with hasRenderTarget := true }

/-- `OnDisplayChange()` (OverlayWindow.cpp 226-243): recompute the bounds
(`CalculateBounds`, whose virtual-screen query is modelled by the new
`newW`/`newH`), reposition the window (`SetWindowPos`, pure geometry), then
`Resize()`. -/
def OnDisplayChange (s : OverlayState) (newW newH : Int)
    (resizeOk bufferOk rtvOk : Bool) : OverlayState :=
  Resize { s with boundsW := newW, boundsH := newH } resizeOk bufferOk rtvOk

/-- `OnDpiChange(dpi)` (OverlayWindow.cpp 245-249): ignores the DPI value
and forwards to `OnDisplayChange`. -/
def OnDpiChange (s : OverlayState) (_dpi : Nat) (newW newH : Int)
    (resizeOk bufferOk rtvOk : Bool) : OverlayState :=
  OnDisplayChange s newW newH resizeOk bufferOk rtvOk

/-! ## Color-inversion pixel shader (invert.hlsl) -/

/-- An RGBA pixel sampled from the input texture, with HLSL floats modelled
as rationals. -/
structure RGBA where
  r : ℚ
  g : ℚ
  b : ℚ
  a : ℚ
deriving DecidableEq, Repr

/-- `RGBtoHSL(float3 rgb)` from the invert shader: returns `(H, S, L)`. -/
def RGBtoHSL (r g b : ℚ) : ℚ × ℚ × ℚ :=
  let maxC := max (max r g) b
  let minC := min (min r g) b
  let delta := maxC - minC
  let L := (maxC + minC) / 2
  if delta > 1/10000 then
    let S := if L < 1/2 then delta / (maxC + minC)
             else delta / (2 - maxC - minC)
    let H :=
      if r = maxC then (g - b) / delta + (if g < b then 6 else 0)
      else if g = maxC then (b - r) / delta + 2
      else (r - g) / delta + 4
    (H / 6, S, L)
  else (0, 0, L)

/-- `HueToRGB(float p, float q, float t)` from the invert shader. -/
def HueToRGB (p q t : ℚ) : ℚ :=
  let t := if t < 0 then t + 1 else t
  let t := if t > 1 then t - 1 else t
  if t < 1/6 then p + (q - p) * 6 * t
  else if t < 1/2 then q
  else if t < 2/3 then p + (q - p) * (2/3 - t) * 6
  else p

/-- `HSLtoRGB(float3 hsl)` from the invert shader: takes `(H, S, L)` and
returns `(r, g, b)`. -/
def HSLtoRGB (hsl : ℚ × ℚ × ℚ) : ℚ × ℚ × ℚ :=
  let H := hsl.1
  let S := hsl.2.1
  let L := hsl.2.2
  if S < 1/10000 then (L, L, L)
  else
    let q := if L < 1/2 then L * (1 + S) else L + S - L * S
    let p := 2 * L - q
    (HueToRGB p q (H + 1/3), HueToRGB p q H, HueToRGB p q (H - 1/3))

/-- `main` of the invert pixel shader (invert.hlsl): `invertMode == 1`
negates each channel; `invertMode == 2` converts to HSL, inverts lightness
and converts back; any other mode passes the sample through.  The sampled
`color` stands for `inputTex.Sample(sampler0, input.TexCoord)`. -/
def invertShaderMain (invertMode : Int) (color : RGBA) : RGBA :=
  if invertMode = 1 then
    { color with r := 1 - color.r, g := 1 - color.g, b := 1 - color.b }
  else if invertMode = 2 then
    let hsl := RGBtoHSL color.r color.g color.b
    let rgb := HSLtoRGB (hsl.1, hsl.2.1, 1 - hsl.2.2)
    { color with r := rgb.1, g := rgb.2.1, b := rgb.2.2 }
  else color

/-! ## Helper lemmas -/

/-- `std::clamp` with `lo ≤ hi` lands in `[lo, hi]`. -/
lemma clampQ_mem (v lo hi : ℚ) (h : lo ≤ hi) :
    lo ≤ clampQ v lo hi ∧ clampQ v lo hi ≤ hi := by
  unfold clampQ
  split
  · exact ⟨le_refl _, h⟩
  · split
    · exact ⟨h, le_refl _⟩
    · next h1 h2 => exact ⟨le_of_not_lt h1, le_of_not_lt h2⟩

/-- Each setter keeps the stored parameters inside their declared ranges. -/
lemma applySetter_inRange (s : PipelineState) (c : SetterCall)
    (h : paramsInRange s.params) : paramsInRange (applySetter s c).params := by
  obtain ⟨h1, h2, h3, h4, h5, h6, h7, h8, h9, h10, h11⟩ := h
  cases c with
  | contrast v =>
    have hc := clampQ_mem v 0 4 (by norm_num)
    exact ⟨hc.1, hc.2, h3, h4, h5, h6, h7, h8, h9, h10, h11⟩
  | brightness v =>
    have hc := clampQ_mem v (-1) 1 (by norm_num)
    exact ⟨h1, h2, hc.1, hc.2, h5, h6, h7, h8, h9, h10, h11⟩
  | gamma v =>
    have hc := clampQ_mem v (1/10) 4 (by norm_num)
    exact ⟨h1, h2, h3, h4, hc.1, hc.2, h7, h8, h9, h10, h11⟩
  | saturation v =>
    have hc := clampQ_mem v 0 2 (by norm_num)
    exact ⟨h1, h2, h3, h4, h5, h6, hc.1, hc.2, h9, h10, h11⟩
  | invert m =>
    refine ⟨h1, h2, h3, h4, h5, h6, h7, h8, ?_, h10, h11⟩
    cases m
    · exact Or.inl rfl
    · exact Or.inr (Or.inl rfl)
    · exact Or.inr (Or.inr rfl)
  | edge v =>
    have hc := clampQ_mem v 0 1 (by norm_num)
    exact ⟨h1, h2, h3, h4, h5, h6, h7, h8, h9, hc.1, hc.2⟩

/-- Range preservation extends to whole setter-call sequences. -/
lemma applySetters_inRange (calls : List SetterCall) (s : PipelineState)
    (h : paramsInRange s.params) :
    paramsInRange (applySetters s calls).params := by
  induction calls generalizing s with
  | nil => exact h
  | cons c cs ih => exact ih _ (applySetter_inRange s c h)

/-- Every setter sets the dirty flag. -/
lemma applySetter_dirty (s : PipelineState) (c : SetterCall) :
    (applySetter s c).paramsDirty = true := by
  cases c <;> rfl

/-- The multi-pass section of `Process` never touches the surface size or
allocation state and reports the `recreated` flag it was given. -/
lemma processPasses_state (s : PipelineState) (srvOk recreated : Bool) :
    (processPasses s srvOk recreated).recreated = recreated ∧
    (processPasses s srvOk recreated).state.outputWidth = s.outputWidth ∧
    (processPasses s srvOk recreated).state.outputHeight = s.outputHeight ∧
    (processPasses s srvOk recreated).state.surfacesAllocated
      = s.surfacesAllocated := by
  unfold processPasses finishProcess UpdateParameters
  by_cases h1 : s.paramsDirty = true <;>
    by_cases h2 : srvOk = false <;>
      by_cases h3 : 0 < s.params.edgeStrength ∧ s.edgeShaderLoaded = true <;>
        by_cases h4 : s.params.invertMode = 0 <;>
          simp [h1, h2, h3, h4]

/-! ## Claim theorems -/

/-- C9: the invert shader's pixel function with `invertMode = 1` (full
inversion, each channel mapped to `1 - c`) is an involution: applying it
twice returns the original pixel value. -/
theorem invert_full_involution (c : RGBA) :
    invertShaderMain 1 (invertShaderMain 1 c) = c := by
  cases c with
  | mk r g b a => simp [invertShaderMain]

/-- C4: `Process` on a pipeline that is not ready returns the input
unchanged — no passes run, no surface recreation happens, and the pipeline
state is not modified (fail-open). -/
theorem process_not_ready_fail_open (s : PipelineState) (input : Option TexDesc)
    (allocOk srvOk : Bool) (h : s.ready = false) :
    Process s input allocOk srvOk
      = { out := ProcOut.returnsInput, state := s, passes := [],
          recreated := false } := by
  cases input with
  | none => rfl
  | some d => simp [Process, h]

/-- Witness for `process_not_ready_fail_open` at the freshly constructed
(never initialized) pipeline and a 1920x1080 input. -/
theorem process_not_ready_fail_open_witness :
    PipelineState.init.ready = false ∧
    Process PipelineState.init (some { width := 1920, height := 1080 }) true true
      = { out := ProcOut.returnsInput, state := PipelineState.init,
          passes := [], recreated := false } :=
  ⟨rfl, process_not_ready_fail_open PipelineState.init
    (some { width := 1920, height := 1080 }) true true rfl⟩

/-- C1 (failing input): on a ready pipeline with `invertMode = None`,
`edgeStrength = 1` and the edge shader loaded, `Process` runs the edge pass
into the output surface but — because `currentInput` is never updated after
that pass — still runs the passthrough pass, which overwrites the
edge-enhanced output with the plain base-adjusted image.  The executed pass
list is `[base, edge, passthrough]`, contradicting "a passthrough copy
executes if and only if neither the invert pass nor the edge pass executed"
and the source's own comment that the copy runs only when the chain "ended
on intermediate". -/
theorem process_edge_without_invert_runs_passthrough :
    (Process
      { ready := true, edgeShaderLoaded := true,
        params := { contrast := 1, brightness := 0, gamma := 1,
                    saturation := 1, invertMode := 0, edgeStrength := 1 },
        gpuParams := TransformParams.init, paramsDirty := false,
        outputWidth := 8, outputHeight := 8, surfacesAllocated := true }
      (some { width := 8, height := 8 }) true true).passes
      = [Pass.base, Pass.edge, Pass.passthrough]
    ∧ (Process
      { ready := true, edgeShaderLoaded := true,
        params := { contrast := 1, brightness := 0, gamma := 1,
                    saturation := 1, invertMode := 0, edgeStrength := 1 },
        gpuParams := TransformParams.init, paramsDirty := false,
        outputWidth := 8, outputHeight := 8, surfacesAllocated := true }
      (some { width := 8, height := 8 }) true true).out
      = ProcOut.returnsOutput := by
  constructor <;> decide

/-- C7: every parameter setter clamps its stored value into the declared
range (contrast `[0,4]`, brightness `[-1,1]`, gamma `[0.1,4]`, saturation
`[0,2]`, edgeStrength `[0,1]`, invertMode in `{0,1,2}`), so every sequence
of setter calls keeps the stored parameters in range; every setter marks the
parameters dirty; and in particular `SetContrast 10` stores exactly `4` and
`SetEdgeStrength (-1)` stores exactly `0`. -/
theorem setters_clamp_and_mark_dirty (s : PipelineState)
    (calls : List SetterCall) (c : SetterCall) (h : paramsInRange s.params) :
    paramsInRange (applySetters s calls).params
    ∧ (applySetter s c).paramsDirty = true
    ∧ (SetContrast s 10).params.contrast = 4
    ∧ (SetEdgeStrength s (-1)).params.edgeStrength = 0 := by
  refine ⟨applySetters_inRange calls s h, applySetter_dirty s c, ?_, ?_⟩
  · norm_num [SetContrast, clampQ]
  · norm_num [SetEdgeStrength, clampQ]

/-- Witness for `setters_clamp_and_mark_dirty`: the default-constructed
parameters are in range, and the theorem applies to the call sequence
`[SetContrast 10, SetEdgeStrength (-1)]`. -/
theorem setters_clamp_and_mark_dirty_witness :
    paramsInRange PipelineState.init.params
    ∧ (paramsInRange (applySetters PipelineState.init
          [SetterCall.contrast 10, SetterCall.edge (-1)]).params
       ∧ (applySetter PipelineState.init (SetterCall.contrast 10)).paramsDirty
           = true
       ∧ (SetContrast PipelineState.init 10).params.contrast = 4
       ∧ (SetEdgeStrength PipelineState.init (-1)).params.edgeStrength = 0) :=
  ⟨by norm_num [paramsInRange, PipelineState.init, TransformParams.init],
   setters_clamp_and_mark_dirty PipelineState.init
     [SetterCall.contrast 10, SetterCall.edge (-1)]
     (SetterCall.contrast 10)
     (by norm_num [paramsInRange, PipelineState.init, TransformParams.init])⟩

/-- C8: on a ready pipeline (with the GPU allocation succeeding), one
`Process` call invokes `CreateIntermediateTextures` if and only if the input
texture's width or height differs from the currently allocated surface
dimensions; when it does, the surfaces carry the new size afterwards, and
when it does not, the surfaces are left exactly as they were (no per-frame
reallocation). -/
theorem process_recreates_surfaces_iff_size_changed
    (s : PipelineState) (d : TexDesc) (srvOk : Bool) (h : s.ready = true) :
    ((Process s (some d) true srvOk).recreated = true
       ↔ (d.width ≠ s.outputWidth ∨ d.height ≠ s.outputHeight))
    ∧ ((Process s (some d) true srvOk).recreated = true →
        (Process s (some d) true srvOk).state.outputWidth = d.width
        ∧ (Process s (some d) true srvOk).state.outputHeight = d.height
        ∧ (Process s (some d) true srvOk).state.surfacesAllocated = true)
    ∧ ((Process s (some d) true srvOk).recreated = false →
        (Process s (some d) true srvOk).state.outputWidth = s.outputWidth
        ∧ (Process s (some d) true srvOk).state.outputHeight = s.outputHeight
        ∧ (Process s (some d) true srvOk).state.surfacesAllocated
            = s.surfacesAllocated) := by
  by_cases hc : d.width ≠ s.outputWidth ∨ d.height ≠ s.outputHeight
  · have hP : Process s (some d) true srvOk
        = processPasses
            { s with outputWidth := d.width, outputHeight := d.height,
                     surfacesAllocated := true } srvOk true := by
      simp [Process, h, CreateIntermediateTextures, hc]
    obtain ⟨r1, r2, r3, r4⟩ := processPasses_state
      { s with outputWidth := d.width, outputHeight := d.height,
               surfacesAllocated := true } srvOk true
    rw [hP]
    refine ⟨?_, ?_, ?_⟩
    · simp [r1, hc]
    · intro _
      exact ⟨r2, r3, r4⟩
    · intro hfalse
      rw [r1] at hfalse
      exact absurd hfalse (by simp)
  · have hP : Process s (some d) true srvOk = processPasses s srvOk false := by
      simp [Process, h, hc]
    obtain ⟨r1, r2, r3, r4⟩ := processPasses_state s srvOk false
    rw [hP]
    refine ⟨?_, ?_, ?_⟩
    · simp [r1, hc]
    · intro htrue
      rw [r1] at htrue
      exact absurd htrue (by simp)
    · intro _
      exact ⟨r2, r3, r4⟩

/-- Witness for `process_recreates_surfaces_iff_size_changed` at a freshly
initialized ready pipeline (surfaces still sized 0x0) and a 1920x1080
input. -/
theorem process_recreates_surfaces_iff_size_changed_witness :
    ({ ready := true, edgeShaderLoaded := false,
       params := TransformParams.init, gpuParams := TransformParams.init,
       paramsDirty := true, outputWidth := 0, outputHeight := 0,
       surfacesAllocated := false } : PipelineState).ready = true
    ∧ (((Process
          { ready := true, edgeShaderLoaded := false,
            params := TransformParams.init, gpuParams := TransformParams.init,
            paramsDirty := true, outputWidth := 0, outputHeight := 0,
            surfacesAllocated := false }
          (some { width := 1920, height := 1080 }) true true).recreated = true
        ↔ (({ width := 1920, height := 1080 } : TexDesc).width ≠ 0
           ∨ ({ width := 1920, height := 1080 } : TexDesc).height ≠ 0))
       ∧ ((Process
          { ready := true, edgeShaderLoaded := false,
            params := TransformParams.init, gpuParams := TransformParams.init,
            paramsDirty := true, outputWidth := 0, outputHeight := 0,
            surfacesAllocated := false }
          (some { width := 1920, height := 1080 }) true true).recreated = true →
          (Process
          { ready := true, edgeShaderLoaded := false,
            params := TransformParams.init, gpuParams := TransformParams.init,
            paramsDirty := true, outputWidth := 0, outputHeight := 0,
            surfacesAllocated := false }
          (some { width := 1920, height := 1080 }) true true).state.outputWidth
            = 1920
          ∧ (Process
          { ready := true, edgeShaderLoaded := false,
            params := TransformParams.init, gpuParams := TransformParams.init,
            paramsDirty := true, outputWidth := 0, outputHeight := 0,
            surfacesAllocated := false }
          (some { width := 1920, height := 1080 }) true true).state.outputHeight
            = 1080
          ∧ (Process
          { ready := true, edgeShaderLoaded := false,
            params := TransformParams.init, gpuParams := TransformParams.init,
            paramsDirty := true, outputWidth := 0, outputHeight := 0,
            surfacesAllocated := false }
          (some { width := 1920, height := 1080 }) true true).state.surfacesAllocated
            = true)
       ∧ ((Process
          { ready := true, edgeShaderLoaded := false,
            params := TransformParams.init, gpuParams := TransformParams.init,
            paramsDirty := true, outputWidth := 0, outputHeight := 0,
            surfacesAllocated := false }
          (some { width := 1920, height := 1080 }) true true).recreated = false →
          (Process
          { ready := true, edgeShaderLoaded := false,
            params := TransformParams.init, gpuParams := TransformParams.init,
            paramsDirty := true, outputWidth := 0, outputHeight := 0,
            surfacesAllocated := false }
          (some { width := 1920, height := 1080 }) true true).state.outputWidth
            = 0
          ∧ (Process
          { ready := true, edgeShaderLoaded := false,
            params := TransformParams.init, gpuParams := TransformParams.init,
            paramsDirty := true, outputWidth := 0, outputHeight := 0,
            surfacesAllocated := false }
          (some { width := 1920, height := 1080 }) true true).state.outputHeight
            = 0
          ∧ (Process
          { ready := true, edgeShaderLoaded := false,
            params := TransformParams.init, gpuParams := TransformParams.init,
            paramsDirty := true, outputWidth := 0, outputHeight := 0,
            surfacesAllocated := false }
          (some { width := 1920, height := 1080 }) true true).state.surfacesAllocated
            = false)) :=
  ⟨rfl,
   process_recreates_surfaces_iff_size_changed
     { ready := true, edgeShaderLoaded := false,
       params := TransformParams.init, gpuParams := TransformParams.init,
       paramsDirty := true, outputWidth := 0, outputHeight := 0,
       surfacesAllocated := false }
     { width := 1920, height := 1080 } true rfl⟩

/-- A representative fully initialized, visible overlay state. -/
def sampleOverlay : OverlayState :=
  { visible := true, hasWindow := true, hasDevice := true, hasSwapChain := true,
    hasRenderTarget := true, hasRenderResources := true, deviceLost := false,
    callbackRegistered := true, deviceGen := 5, boundsW := 100, boundsH := 100 }

/-- C2: when `Present` observes a device-removed or device-reset condition
on a visible overlay, exactly one recovery attempt runs.  If device
recreation and resource recreation both succeed, the device-lost flag is
cleared, the overlay stays visible with a live device, swap chain, render
target and render resources (the device generation advances by one), and the
registered device-lost callback is invoked; if either step fails, the
overlay is hidden and the callback is not invoked — in both cases `Present`
returns normally. -/
theorem present_device_lost_single_recovery
    (s : OverlayState) (hr : PresentHR) (initOk createOk : Bool)
    (hv : s.visible = true) (hsc : s.hasSwapChain = true)
    (hw : s.hasWindow = true)
    (hhr : hr = PresentHR.deviceRemoved ∨ hr = PresentHR.deviceReset) :
    (Present s hr initOk createOk).recoveryAttempts = 1
    ∧ (initOk = true → createOk = true →
        (Present s hr initOk createOk).state.deviceLost = false
        ∧ (Present s hr initOk createOk).state.visible = true
        ∧ (Present s hr initOk createOk).state.hasDevice = true
        ∧ (Present s hr initOk createOk).state.hasSwapChain = true
        ∧ (Present s hr initOk createOk).state.hasRenderTarget = true
        ∧ (Present s hr initOk createOk).state.hasRenderResources = true
        ∧ (Present s hr initOk createOk).state.deviceGen = s.deviceGen + 1
        ∧ (Present s hr initOk createOk).callbackInvoked
            = s.callbackRegistered)
    ∧ ((initOk = false ∨ createOk = false) →
        (Present s hr initOk createOk).state.visible = false
        ∧ (Present s hr initOk createOk).callbackInvoked = false) := by
  rcases hhr with h | h <;> subst h <;>
    cases initOk <;> cases createOk <;>
      simp [Present, RecoverFromDeviceLost, Hide, hv, hsc, hw]

/-- Witness for `present_device_lost_single_recovery`: a simulated
device-removed on `sampleOverlay` with a successful recovery. -/
theorem present_device_lost_single_recovery_witness :
    sampleOverlay.visible = true ∧ sampleOverlay.hasSwapChain = true
    ∧ sampleOverlay.hasWindow = true
    ∧ (PresentHR.deviceRemoved = PresentHR.deviceRemoved
       ∨ PresentHR.deviceRemoved = PresentHR.deviceReset)
    ∧ ((Present sampleOverlay PresentHR.deviceRemoved true true).recoveryAttempts
         = 1
       ∧ (true = true → true = true →
           (Present sampleOverlay PresentHR.deviceRemoved true true).state.deviceLost
             = false
           ∧ (Present sampleOverlay PresentHR.deviceRemoved true true).state.visible
             = true
           ∧ (Present sampleOverlay PresentHR.deviceRemoved true true).state.hasDevice
             = true
           ∧ (Present sampleOverlay PresentHR.deviceRemoved true true).state.hasSwapChain
             = true
           ∧ (Present sampleOverlay PresentHR.deviceRemoved true true).state.hasRenderTarget
             = true
           ∧ (Present sampleOverlay PresentHR.deviceRemoved true true).state.hasRenderResources
             = true
           ∧ (Present sampleOverlay PresentHR.deviceRemoved true true).state.deviceGen
             = sampleOverlay.deviceGen + 1
           ∧ (Present sampleOverlay PresentHR.deviceRemoved true true).callbackInvoked
             = sampleOverlay.callbackRegistered)
       ∧ ((true = false ∨ true = false) →
           (Present sampleOverlay PresentHR.deviceRemoved true true).state.visible
             = false
           ∧ (Present sampleOverlay PresentHR.deviceRemoved true true).callbackInvoked
             = false)) :=
  ⟨rfl, rfl, rfl, Or.inl rfl,
   present_device_lost_single_recovery sampleOverlay PresentHR.deviceRemoved
     true true rfl rfl rfl (Or.inl rfl)⟩

/-- C6 counterexample: on `sampleOverlay` (device generation 5), a display
change whose swap-chain resize fails leaves the overlay merely hidden: the
device-lost flag stays `false`, the device is still alive and its generation
is still 5 — no device-loss recovery (full device recreation) is attempted,
contradicting "only if that resize itself fails is the condition treated as
device loss (the same recovery path as DeviceLost)". -/
theorem display_resize_failure_not_device_loss_cex :
    (OnDisplayChange sampleOverlay 200 150 false true true).visible = false
    ∧ ¬((OnDisplayChange sampleOverlay 200 150 false true true).deviceLost = true
        ∨ (OnDisplayChange sampleOverlay 200 150 false true true).deviceGen ≠ 5
        ∨ (OnDisplayChange sampleOverlay 200 150 false true true).hasDevice
            = false) := by
  decide

/-- C6 (amended): a display or DPI change resizes the swap chain and render
target in place — the device is never recreated and the device-lost flag is
never raised, whatever the resize outcome.  If every resize step succeeds
the render target is rebuilt at the new bounds with visibility untouched; if
any resize step fails the overlay is simply hidden (no device-loss recovery
is attempted).  `OnDpiChange` is exactly `OnDisplayChange`. -/
theorem display_change_resizes_in_place
    (s : OverlayState) (w h : Int) (dpi : Nat) (resizeOk bufferOk rtvOk : Bool)
    (hsc : s.hasSwapChain = true) (hw : s.hasWindow = true)
    (hwp : 0 < w) (hhp : 0 < h) :
    (OnDisplayChange s w h resizeOk bufferOk rtvOk).deviceGen = s.deviceGen
    ∧ (OnDisplayChange s w h resizeOk bufferOk rtvOk).deviceLost = s.deviceLost
    ∧ (OnDisplayChange s w h resizeOk bufferOk rtvOk).hasDevice = s.hasDevice
    ∧ (resizeOk = true → bufferOk = true → rtvOk = true →
        (OnDisplayChange s w h resizeOk bufferOk rtvOk).hasRenderTarget = true
        ∧ (OnDisplayChange s w h resizeOk bufferOk rtvOk).visible = s.visible
        ∧ (OnDisplayChange s w h resizeOk bufferOk rtvOk).boundsW = w
        ∧ (OnDisplayChange s w h resizeOk bufferOk rtvOk).boundsH = h
        ∧ (OnDisplayChange s w h resizeOk bufferOk rtvOk).hasSwapChain = true)
    ∧ ((resizeOk = false ∨ bufferOk = false ∨ rtvOk = false) →
        (OnDisplayChange s w h resizeOk bufferOk rtvOk).visible = false)
    ∧ OnDpiChange s dpi w h resizeOk bufferOk rtvOk
        = OnDisplayChange s w h resizeOk bufferOk rtvOk := by
  cases resizeOk <;> cases bufferOk <;> cases rtvOk <;>
    cases hv : s.visible <;>
      simp [OnDisplayChange, OnDpiChange, Resize, Hide, hsc, hw, hv,
            not_le.mpr hwp, not_le.mpr hhp]

/-- Witness for `display_change_resizes_in_place`: a successful display
change on `sampleOverlay` to 200x150 bounds. -/
theorem display_change_resizes_in_place_witness :
    sampleOverlay.hasSwapChain = true ∧ sampleOverlay.hasWindow = true
    ∧ (0 : Int) < 200 ∧ (0 : Int) < 150
    ∧ ((OnDisplayChange sampleOverlay 200 150 true true true).deviceGen
         = sampleOverlay.deviceGen
       ∧ (OnDisplayChange sampleOverlay 200 150 true true true).deviceLost
         = sampleOverlay.deviceLost
       ∧ (OnDisplayChange sampleOverlay 200 150 true true true).hasDevice
         = sampleOverlay.hasDevice
       ∧ (true = true → true = true → true = true →
           (OnDisplayChange sampleOverlay 200 150 true true true).hasRenderTarget
             = true
           ∧ (OnDisplayChange sampleOverlay 200 150 true true true).visible
             = sampleOverlay.visible
           ∧ (OnDisplayChange sampleOverlay 200 150 true true true).boundsW = 200
           ∧ (OnDisplayChange sampleOverlay 200 150 true true true).boundsH = 150
           ∧ (OnDisplayChange sampleOverlay 200 150 true true true).hasSwapChain
             = true)
       ∧ ((true = false ∨ true = false ∨ true = false) →
           (OnDisplayChange sampleOverlay 200 150 true true true).visible = false)
       ∧ OnDpiChange sampleOverlay 96 200 150 true true true
           = OnDisplayChange sampleOverlay 200 150 true true true) :=
  ⟨rfl, rfl, by decide, by decide,
   display_change_resizes_in_place sampleOverlay 200 150 96 true true true
     rfl rfl (by decide) (by decide)⟩

/-- C3: after `Stop()` returns, delivering a frame-arrived event for any
monitor never invokes the frame callback, whatever callback was registered
and whether or not a frame is pending; and mechanically, for every capture
with a live subscription the first teardown action `Stop` performs on it is
the handler revocation — before the session and frame pool are closed — and
that revocation actually occurs in `Stop`'s teardown trace.  (The hypothesis
is the reachability invariant that a non-running manager holds no
captures.) -/
theorem stop_prevents_frame_callback
    (s : CaptureState) (m : Nat) (frameOk : Bool) (c : MonitorCapture)
    (hinv : s.running = false → s.captures = [])
    (hc : c ∈ s.captures) (hsub : c.subscribed = true)
    (hpool : c.framePoolOpen = true) :
    deliverFrameEvent (Stop s).1 m frameOk = false
    ∧ (Stop s).1.running = false
    ∧ (stopCaptureActions c).head?
        = some (StopAction.revokeHandler c.monitor)
    ∧ (s.running = true →
        StopAction.revokeHandler c.monitor ∈ (Stop s).2) := by
  refine ⟨?_, ?_, ?_, ?_⟩
  · cases hrun : s.running
    · have hS : Stop s = (s, []) := by simp [Stop, hrun]
      rw [hS]
      simp [deliverFrameEvent, hinv hrun]
    · have hS : (Stop s).1.captures = [] := by simp [Stop, hrun]
      simp [deliverFrameEvent, hS]
  · cases hrun : s.running <;> simp [Stop, hrun]
  · simp [stopCaptureActions, hsub, hpool]
  · intro hrun
    simp only [Stop, hrun, Bool.true_eq_false, if_false]
    refine List.mem_flatten.mpr
      ⟨stopCaptureActions c, List.mem_map_of_mem _ hc, ?_⟩
    simp [stopCaptureActions, hsub, hpool]

/-- Witness for `stop_prevents_frame_callback`: a running two-session
manager (monitors 0 and 2) with a registered callback, stopped, then a
pending frame event for monitor 0 is delivered. -/
theorem stop_prevents_frame_callback_witness :
    (({ running := true, captures := [mkCapture 0, mkCapture 2],
        monitors := [0, 1, 2], callbackSet := true } : CaptureState).running
          = false →
      ({ running := true, captures := [mkCapture 0, mkCapture 2],
         monitors := [0, 1, 2], callbackSet := true } : CaptureState).captures
          = [])
    ∧ mkCapture 0 ∈
        ({ running := true, captures := [mkCapture 0, mkCapture 2],
           monitors := [0, 1, 2], callbackSet := true } : CaptureState).captures
    ∧ (mkCapture 0).subscribed = true
    ∧ (mkCapture 0).framePoolOpen = true
    ∧ (deliverFrameEvent
        (Stop { running := true, captures := [mkCapture 0, mkCapture 2],
                monitors := [0, 1, 2], callbackSet := true }).1 0 true = false
       ∧ (Stop { running := true, captures := [mkCapture 0, mkCapture 2],
                 monitors := [0, 1, 2], callbackSet := true }).1.running = false
       ∧ (stopCaptureActions (mkCapture 0)).head?
           = some (StopAction.revokeHandler (mkCapture 0).monitor)
       ∧ (({ running := true, captures := [mkCapture 0, mkCapture 2],
             monitors := [0, 1, 2], callbackSet := true } :
               CaptureState).running = true →
           StopAction.revokeHandler (mkCapture 0).monitor ∈
             (Stop { running := true, captures := [mkCapture 0, mkCapture 2],
                     monitors := [0, 1, 2], callbackSet := true }).2)) :=
  ⟨by decide, by decide, rfl, rfl,
   stop_prevents_frame_callback
     { running := true, captures := [mkCapture 0, mkCapture 2],
       monitors := [0, 1, 2], callbackSet := true }
     0 true (mkCapture 0) (by decide) (by decide) rfl rfl⟩

/-- Projecting the monitor back out of freshly created captures is the
identity. -/
lemma map_monitor_mkCapture (L : List Nat) :
    L.map (MonitorCapture.monitor ∘ mkCapture) = L := by
  induction L with
  | nil => rfl
  | cons x xs ih => simp [mkCapture, Function.comp, ih]

/-- The frame-arrived guard over freshly created captures reduces to list
membership of the monitor. -/
lemma any_monitor_mem (L : List Nat) (mon : Nat) :
    ((L.map mkCapture).any
      (fun c => c.monitor == mon && c.subscribed && c.framePoolOpen))
      = decide (mon ∈ L) := by
  induction L with
  | nil => simp
  | cons x xs ih =>
    simp only [List.map_cons, List.any_cons, mkCapture, List.mem_cons, ih]
    by_cases hxm : mon = x
    · subst hxm
      simp
    · have hmx : ¬x = mon := fun hh => hxm hh.symm
      simp [hxm, hmx]

/-- C5: starting a non-running manager with no live captures succeeds if
and only if at least one per-monitor session was created; the sessions
created are exactly those of the monitors whose creation succeeded (failed
monitors do not prevent the others), each created session is fully wired
(subscribed, session and frame pool open); and afterwards a frame event is
delivered to the callback exactly for the monitors whose session was
created. -/
theorem start_success_iff_some_session
    (s : CaptureState) (probeOk : Bool) (createOk : Nat → Bool)
    (mon : Nat) (frameOk : Bool)
    (hrun : s.running = false) (hcaps : s.captures = []) :
    ((Start s probeOk createOk).1 = true
       ↔ (Start s probeOk createOk).2.captures ≠ [])
    ∧ (Start s probeOk createOk).2.captures.map MonitorCapture.monitor
        = (if probeOk = true then s.monitors.filter createOk else [])
    ∧ (∀ cpt ∈ (Start s probeOk createOk).2.captures,
        cpt.subscribed = true ∧ cpt.sessionOpen = true
        ∧ cpt.framePoolOpen = true)
    ∧ (probeOk = true →
        deliverFrameEvent (Start s probeOk createOk).2 mon frameOk
          = (decide (mon ∈ s.monitors.filter createOk)
              && frameOk && s.callbackSet)) := by
  cases probeOk
  · simp [Start, hrun, hcaps]
  · refine ⟨?_, ?_, ?_, ?_⟩
    · simp [Start, hrun, hcaps]
    · simp [Start, hrun, hcaps, map_monitor_mkCapture]
    · intro cpt hmem
      simp only [Start, hrun, Bool.false_eq_true, if_false,
        if_true, hcaps, List.nil_append] at hmem
      obtain ⟨mref, _, rfl⟩ := List.mem_map.mp hmem
      exact ⟨rfl, rfl, rfl⟩
    · intro _
      simp only [Start, hrun, Bool.false_eq_true, if_false, hcaps,
        List.nil_append]
      cases frameOk <;>
        simp [deliverFrameEvent, OnFrameArrived, any_monitor_mem]

/-- Witness for `start_success_iff_some_session`: three monitors with the
middle one's session creation failing — `Start` still succeeds, sessions
exist exactly for monitors 0 and 2, and a frame event for monitor 2 reaches
the callback. -/
theorem start_success_iff_some_session_witness :
    (({ running := false, captures := [], monitors := [0, 1, 2],
        callbackSet := true } : CaptureState).running = false)
    ∧ (({ running := false, captures := [], monitors := [0, 1, 2],
          callbackSet := true } : CaptureState).captures = [])
    ∧ (((Start { running := false, captures := [], monitors := [0, 1, 2],
                 callbackSet := true } true (fun mn => !(mn == 1))).1 = true
        ↔ (Start { running := false, captures := [], monitors := [0, 1, 2],
                   callbackSet := true } true
              (fun mn => !(mn == 1))).2.captures ≠ [])
       ∧ (Start { running := false, captures := [], monitors := [0, 1, 2],
                  callbackSet := true } true
            (fun mn => !(mn == 1))).2.captures.map MonitorCapture.monitor
           = (if true = true then
                ([0, 1, 2] : List Nat).filter (fun mn => !(mn == 1)) else [])
       ∧ (∀ cpt ∈ (Start { running := false, captures := [],
                           monitors := [0, 1, 2], callbackSet := true } true
                     (fun mn => !(mn == 1))).2.captures,
           cpt.subscribed = true ∧ cpt.sessionOpen = true
           ∧ cpt.framePoolOpen = true)
       ∧ (true = true →
           deliverFrameEvent
             (Start { running := false, captures := [], monitors := [0, 1, 2],
                      callbackSet := true } true (fun mn => !(mn == 1))).2
             2 true
             = (decide (2 ∈ ([0, 1, 2] : List Nat).filter (fun mn => !(mn == 1)))
                 && true && true))) :=
  ⟨rfl, rfl,
   start_success_iff_some_session
     { running := false, captures := [], monitors := [0, 1, 2],
       callbackSet := true }
     true (fun mn => !(mn == 1)) 2 true rfl rfl⟩

/-- C10: `Start` on a fresh manager whose capability probe succeeds but
whose every per-monitor session creation fails returns `false` yet leaves
`m_running = true` with no captures, so `IsRunning()` reports `true`
afterwards, and a second `Start()` call — whatever its probe or creation
outcomes would be — returns `true` immediately with the state unchanged
(no session creation is attempted; the failed state is never rolled
back). -/
theorem start_sets_running_despite_failure
    (monitors : List Nat) (cb : Bool) (probe2 : Bool) (create2 : Nat → Bool) :
    (Start { running := false, captures := [], monitors := monitors,
             callbackSet := cb } true (fun _ => false)).1 = false
    ∧ (Start { running := false, captures := [], monitors := monitors,
               callbackSet := cb } true (fun _ => false)).2.running = true
    ∧ IsRunning
        (Start { running := false, captures := [], monitors := monitors,
                 callbackSet := cb } true (fun _ => false)).2
        = true
    ∧ (Start { running := false, captures := [], monitors := monitors,
               callbackSet := cb } true (fun _ => false)).2.captures = []
    ∧ Start
        (Start { running := false, captures := [], monitors := monitors,
                 callbackSet := cb } true (fun _ => false)).2 probe2 create2
        = (true,
           (Start { running := false, captures := [], monitors := monitors,
                    callbackSet := cb } true (fun _ => false)).2) := by
  have hfilt : monitors.filter (fun _ => false) = [] := by
    induction monitors with
    | nil => rfl
    | cons x xs ih => simp [List.filter, ih]
  simp [Start, IsRunning, hfilt]

end Clarity
